/-
  Verification of the Job-Application-Tracker backend (backend.py).

  The backend module in the repository contains two concatenated copies of
  the same file.  Under Python semantics the later `def` of a name shadows
  the earlier one, so the executable definition of each function is the one
  from the second copy; where the two copies differ (only
  `save_job_application`) we embed both, naming the shadowed first copy
  `save_job_application_v1` and the effective second copy
  `save_job_application`.

  Modelling conventions:
  * SQLite tables are lists of row structures in insertion (rowid) order;
    `AUTOINCREMENT` ids are passed in as `nextId`; `datetime.utcnow()`
    timestamps are passed in as strings.
  * A Python dict argument whose keys are read with `data.get(k, default)`
    is a structure of `Option` fields, `get` becoming `Option.getD`;
    keys read with `data[k]` (required) are plain fields.
  * The Google-Sheets worksheet is a list of rows of cell strings.  The
    transport (credential loading / authorization / opening the sheet) is
    an `Except String Unit` parameter: `.error e` means the gspread calls
    raise an exception `e`, `.ok ()` means the transport works.  A Python
    function that may propagate an exception returns in the
    `Except String` monad; `try ... except` branches are modelled by
    matching on that parameter.
  * External pure collaborators (`validators.email`, `bcrypt.hashpw` with
    its generated salt, `bcrypt.checkpw`) are abstract function parameters.
-/
import Mathlib

/-- One row of the `users` table (backend.py lines 44-51). -/
structure UserRow where
  id : Nat
  email : String
  password_hash : String
  created_at : String
deriving DecidableEq, Repr

/-- One row of the `user_profiles` table (backend.py lines 53-69). -/
structure ProfileRow where
  id : Nat
  user_email : String
  first_name : String
  last_name : String
  address : String
  city : String
  mobile_number : String
  github_url : String
  job_position : String
  experience_months : Int
  skills : String
  preferred_locations : String
  created_at : String
deriving DecidableEq, Repr

/-- One row of the `job_applications` table (backend.py lines 71-86). -/
structure JobRow where
  id : Nat
  user_email : String
  job_link : String
  company_name : String
  job_role : String
  job_location : String
  status : String
  recruiter_name : String
  recruiter_email : String
  recruiter_phone : String
  comments : String
  created_at : String
deriving DecidableEq, Repr

/-- The `data` dict passed to `save_job_application` and
`append_job_to_google_sheets`: `user_email` and `job_link` are read with
`data[...]` by at least one consumer, the rest with `data.get(..., "")`. -/
structure JobData where
  user_email : String
  job_link : String
  company_name : Option String := none
  job_role : Option String := none
  job_location : Option String := none
  status : Option String := none
  recruiter_name : Option String := none
  recruiter_email : Option String := none
  recruiter_phone : Option String := none
  comments : Option String := none
deriving DecidableEq, Repr

/-- The `data` dict passed to `update_job_application`; every key is read
with `data.get(..., "")`. -/
structure JobUpdateData where
  job_link : Option String := none
  company_name : Option String := none
  job_role : Option String := none
  job_location : Option String := none
  status : Option String := none
  recruiter_name : Option String := none
  recruiter_email : Option String := none
  recruiter_phone : Option String := none
  comments : Option String := none
deriving DecidableEq, Repr

/-- The `data` dict passed to `update_profile` / `save_profile`; every
updatable key is read with `data.get(..., default)`. -/
structure ProfileUpdateData where
  first_name : Option String := none
  last_name : Option String := none
  address : Option String := none
  city : Option String := none
  mobile_number : Option String := none
  github_url : Option String := none
  job_position : Option String := none
  experience_months : Option Int := none
  skills : Option String := none
  preferred_locations : Option String := none
deriving DecidableEq, Repr

/-- The dict returned by `get_profile` (backend.py lines 633-645): the ten
selected profile columns. -/
structure ProfileFields where
  first_name : String
  last_name : String
  address : String
  city : String
  mobile_number : String
  github_url : String
  job_position : String
  experience_months : Int
  skills : String
  preferred_locations : String
deriving DecidableEq, Repr

/-- A Google-Sheets worksheet: a list of rows of cell strings (gspread
`get_all_values` returns all cells as strings). -/
abbrev Sheet := List (List String)

/-- The canonical header row (backend.py lines 744-748). -/
def sheetHeaders : List String :=
  ["User Email", "Job Link", "Company Name", "Job Role", "Job Location", "Status",
   "Recruiter Name", "Recruiter Email", "Recruiter Phone", "Days Since Created",
   "Comments", "Created At"]

/-- Python `str.strip()`: drop the whitespace surrounding a string.
Implemented structurally on the character list (rather than through
`String.trim`, whose well-founded recursion does not reduce) so that
concrete instances evaluate. -/
def pyStrip (s : String) : String :=
  String.mk (((s.data.dropWhile Char.isWhitespace).reverse.dropWhile
      Char.isWhitespace).reverse)

/-- The header-row test of `append_job_to_google_sheets` (backend.py line
755): `len(first_row) < len(headers) or any(h1.strip() != h2.strip() for
h1, h2 in zip(first_row, headers))`. -/
def headerMismatch (firstRow : List String) : Bool :=
  decide (firstRow.length < sheetHeaders.length) ||
    (firstRow.zip sheetHeaders).any (fun p => pyStrip p.1 != pyStrip p.2)

/-- The data row appended by `append_job_to_google_sheets` (backend.py
lines 762-775); `days_since` is computed from the wall clock by the caller
of this model. -/
def sheetRow (data : JobData) (daysSince : Int) (created_iso : String) : List String :=
  [data.user_email, data.job_link, data.company_name.getD "",
   data.job_role.getD "", data.job_location.getD "", data.status.getD "",
   data.recruiter_name.getD "", data.recruiter_email.getD "",
   data.recruiter_phone.getD "", toString daysSince, data.comments.getD "",
   created_iso]

/-- `append_job_to_google_sheets(data, created_iso)` (backend.py lines
738-780).  The whole body is wrapped in `try ... except Exception` that
returns a failure string, so the result is always `Except.ok`. -/
def append_job_to_google_sheets (auth : Except String Unit) (sheet : Sheet)
    (data : JobData) (daysSince : Int) (created_iso : String) :
    Except String (String × Sheet) :=
  match auth with
  | .error e => .ok ("Failed to append job to Google Sheets: " ++ e, sheet)
  | .ok () =>
    let sheet1 : Sheet :=
      match sheet with
      | [] => sheet ++ [sheetHeaders]
      | firstRow :: _ =>
        if headerMismatch firstRow then [sheetHeaders] else sheet
    .ok ("Job appended to Google Sheets.", sheet1 ++ [sheetRow data daysSince created_iso])

/-- The per-row match test of `delete_job_from_google_sheets` (backend.py
lines 859-862), with `uc`/`jc` the 1-based column numbers: the row is long
enough and both cells equal the given values. -/
def matchRow (uc jc : Nat) (ue jl : String) (row : List String) : Bool :=
  decide (max uc jc ≤ row.length) &&
    (row.getD (uc - 1) "" == ue) && (row.getD (jc - 1) "" == jl)

/-- The `rows_to_delete` accumulation loop of `delete_job_from_google_sheets`
(backend.py lines 858-862): `for i, row in enumerate(data[1:], start=2)`. -/
def collectIdxs (uc jc : Nat) (ue jl : String) : List (List String) → Nat → List Nat
  | [], _ => []
  | r :: rs, i =>
    (if matchRow uc jc ue jl r then [i] else []) ++ collectIdxs uc jc ue jl rs (i + 1)

/-- Descending relation on `Nat`, for `sorted(..., reverse=True)`. -/
def natDesc (a b : Nat) : Prop := b ≤ a

instance : DecidableRel natDesc := fun a b => Nat.decLe b a

instance : IsTotal Nat natDesc := ⟨fun a b => le_total b a⟩

instance : IsTrans Nat natDesc := ⟨fun _ _ _ h1 h2 => le_trans h2 h1⟩

instance : IsAntisymm Nat natDesc := ⟨fun _ _ h1 h2 => le_antisymm h2 h1⟩

/-- `sorted(l, reverse=True)`. -/
def sortDesc (l : List Nat) : List Nat := List.insertionSort natDesc l

/-- `sheet.delete_rows(idx)` for a 1-based row number `idx`. -/
def deleteSheetRow (s : Sheet) (idx : Nat) : Sheet := s.eraseIdx (idx - 1)

/-- `delete_job_from_google_sheets(user_email, job_link)` (backend.py lines
837-875).  The body is wrapped in `try ... except Exception` returning a
failure string, so the result is always `Except.ok`. -/
def delete_job_from_google_sheets (auth : Except String Unit) (sheet : Sheet)
    (user_email job_link : String) : Except String (String × Sheet) :=
  match auth with
  | .error e => .ok ("Failed to delete from Google Sheets: " ++ e, sheet)
  | .ok () =>
    match sheet with
    | [] => .ok ("No rows to delete in Google Sheet.", sheet)
    | headers0 :: dataRows =>
      if dataRows.isEmpty then .ok ("No rows to delete in Google Sheet.", sheet)
      else
        match (headers0.findIdx? (fun h => h == "User Email")).map (· + 1),
              (headers0.findIdx? (fun h => h == "Job Link")).map (· + 1) with
        | some uc, some jc =>
          let idxs := collectIdxs uc jc user_email job_link dataRows 2
          if idxs.isEmpty then .ok ("No matching row found in Google Sheet.", sheet)
          else .ok ("Deleted from Google Sheet.",
                    (sortDesc idxs).foldl deleteSheetRow sheet)
        | _, _ => .ok ("Required columns not found in Google Sheet.", sheet)

/-- `clear_google_sheet_rows()` (backend.py lines 882-898): clears the
sheet and writes the header row; its `except` branch logs and then
RE-RAISES the transport exception, so a transport failure propagates to
the caller as `Except.error`. -/
def clear_google_sheet_rows (auth : Except String Unit) (sheet : Sheet) :
    Except String Sheet :=
  match auth with
  | .error e => .error e
  | .ok () => .ok [sheetHeaders]

/-- `job_exists_for_user(user_email, job_link)` (backend.py lines 221-231,
first copy only, never shadowed). -/
def job_exists_for_user (store : List JobRow) (user_email job_link : String) : Bool :=
  store.any (fun r => r.user_email == user_email && r.job_link == job_link)

/-- The `INSERT INTO job_applications` statement shared by both copies of
`save_job_application`. -/
def insertJobRow (store : List JobRow) (nextId : Nat) (now_iso : String)
    (data : JobData) : List JobRow :=
  store ++ [{ id := nextId, user_email := data.user_email,
              job_link := data.job_link,
              company_name := data.company_name.getD "",
              job_role := data.job_role.getD "",
              job_location := data.job_location.getD "",
              status := data.status.getD "",
              recruiter_name := data.recruiter_name.getD "",
              recruiter_email := data.recruiter_email.getD "",
              recruiter_phone := data.recruiter_phone.getD "",
              comments := data.comments.getD "",
              created_at := now_iso }]

/-- First-copy `save_job_application(data)` (backend.py lines 234-269):
rejects a duplicate `(user_email, job_link)` pair, otherwise inserts and
appends to the sheet.  This definition is SHADOWED by the second copy
below and is not the one that executes. -/
def save_job_application_v1 (auth : Except String Unit) (sheet : Sheet)
    (daysSince : Int) (store : List JobRow) (nextId : Nat) (now_iso : String)
    (data : JobData) : Except String (String × List JobRow × Sheet) :=
  if job_exists_for_user store data.user_email data.job_link then
    .ok ("Duplicate job link for this user. Record not added.", store, sheet)
  else do
    let store1 := insertJobRow store nextId now_iso data
    let (_gs_msg, sheet1) ← append_job_to_google_sheets auth sheet data daysSince now_iso
    pure ("Job application saved successfully!", store1, sheet1)

/-- Second-copy `save_job_application(data)` (backend.py lines 678-706),
the definition that executes: it performs NO duplicate check — it inserts
unconditionally, appends to the sheet, and reports success. -/
def save_job_application (auth : Except String Unit) (sheet : Sheet)
    (daysSince : Int) (store : List JobRow) (nextId : Nat) (now_iso : String)
    (data : JobData) : Except String (String × List JobRow × Sheet) := do
  let store1 := insertJobRow store nextId now_iso data
  let (_gs_msg, sheet1) ← append_job_to_google_sheets auth sheet data daysSince now_iso
  pure ("Job application saved successfully!", store1, sheet1)

/-- Descending-id relation on job rows, for `ORDER BY id DESC`. -/
def jobIdGe (a b : JobRow) : Prop := b.id ≤ a.id

instance : DecidableRel jobIdGe := fun a b => Nat.decLe b.id a.id

instance : IsTotal JobRow jobIdGe := ⟨fun a b => le_total b.id a.id⟩

instance : IsTrans JobRow jobIdGe := ⟨fun _ _ _ h1 h2 => le_trans h2 h1⟩

/-- `get_user_applications(user_email)` (backend.py lines 709-735):
`SELECT ... WHERE user_email = ? ORDER BY id DESC`.  Ids are unique
(`INTEGER PRIMARY KEY`), so any sort realising the descending-id order
models the query; the returned dicts carry the selected columns of each
row, modelled as the row itself. -/
def get_user_applications (store : List JobRow) (user_email : String) : List JobRow :=
  List.insertionSort jobIdGe (store.filter (fun r => r.user_email == user_email))

/-- The `SET` clause of `update_job_application` (backend.py lines
787-803): overwrites the nine listed columns, leaving `id`, `user_email`
and `created_at` alone. -/
def applyJobUpdate (d : JobUpdateData) (r : JobRow) : JobRow :=
  { r with job_link := d.job_link.getD "",
           company_name := d.company_name.getD "",
           job_role := d.job_role.getD "",
           job_location := d.job_location.getD "",
           status := d.status.getD "",
           recruiter_name := d.recruiter_name.getD "",
           recruiter_email := d.recruiter_email.getD "",
           recruiter_phone := d.recruiter_phone.getD "",
           comments := d.comments.getD "" }

/-- `update_job_application(job_id, data)` (backend.py lines 784-806):
`UPDATE job_applications SET ... WHERE id = ?` with no uniqueness check of
any kind, then the fixed success message. -/
def update_job_application (store : List JobRow) (job_id : Nat)
    (d : JobUpdateData) : String × List JobRow :=
  ("Job updated locally.",
   store.map (fun r => if r.id == job_id then applyJobUpdate d r else r))

/-- `delete_job_application_by_id(job_id)` (backend.py lines 809-834):
fetch the row (`fetchone` returns the first match in rowid order), bail
out if absent, otherwise delete locally and then mirror-delete keyed by
the values captured before the local deletion. -/
def delete_job_application_by_id (auth : Except String Unit) (sheet : Sheet)
    (store : List JobRow) (job_id : Nat) :
    Except String (String × List JobRow × Sheet) :=
  match store.find? (fun r => r.id == job_id) with
  | none => .ok ("No such job record found.", store, sheet)
  | some row => do
    let store1 := store.filter (fun r => r.id != job_id)
    let (sheet_msg, sheet1) ← delete_job_from_google_sheets auth sheet row.user_email row.job_link
    pure ("Job application deleted successfully (" ++ sheet_msg ++ ")", store1, sheet1)

/-- `register_user(email, password)` (backend.py lines 552-572).
`emailValid` abstracts `validators.email`; `hashpw` abstracts
`bcrypt.hashpw(password, bcrypt.gensalt())` (the generated salt is folded
into the abstract function).  The `UNIQUE` column raising
`sqlite3.IntegrityError` is modelled by the membership test. -/
def register_user (emailValid : String → Bool) (hashpw : String → String)
    (store : List UserRow) (nextId : Nat) (now_iso : String)
    (email password : String) : String × List UserRow :=
  if !(emailValid email) then ("Invalid email format.", store)
  else if password.length < 8 then ("Password must be at least 8 characters.", store)
  else if store.any (fun u => u.email == email) then ("Email already registered.", store)
  else ("Registration successful!",
        store ++ [{ id := nextId, email := email, password_hash := hashpw password,
                    created_at := now_iso }])

/-- `login_user(email, password)` (backend.py lines 575-588).  `checkpw`
abstracts `bcrypt.checkpw(password, stored_hash)`. -/
def login_user (checkpw : String → String → Bool) (store : List UserRow)
    (email password : String) : String :=
  match store.find? (fun u => u.email == email) with
  | none => "No account found with that email."
  | some u =>
    if checkpw password u.password_hash then "Login successful!"
    else "Incorrect password."

/-- Descending-id relation on profile rows, for `ORDER BY id DESC`. -/
def profIdGe (a b : ProfileRow) : Prop := b.id ≤ a.id

instance : DecidableRel profIdGe := fun a b => Nat.decLe b.id a.id

instance : IsTotal ProfileRow profIdGe := ⟨fun a b => le_total b.id a.id⟩

instance : IsTrans ProfileRow profIdGe := ⟨fun _ _ _ h1 h2 => le_trans h2 h1⟩

/-- The ten columns selected by `get_profile` (backend.py lines 624-645). -/
def profileFieldsOf (r : ProfileRow) : ProfileFields :=
  { first_name := r.first_name, last_name := r.last_name, address := r.address,
    city := r.city, mobile_number := r.mobile_number, github_url := r.github_url,
    job_position := r.job_position, experience_months := r.experience_months,
    skills := r.skills, preferred_locations := r.preferred_locations }

/-- The subquery `SELECT id FROM user_profiles WHERE user_email = ?
ORDER BY id DESC LIMIT 1` (backend.py line 656): the id of the latest
profile row of the user, if any. -/
def latestProfileId (store : List ProfileRow) (user_email : String) : Option Nat :=
  ((List.insertionSort profIdGe
      (store.filter (fun r => r.user_email == user_email))).head?).map (·.id)

/-- `get_profile(user_email)` (backend.py lines 621-646): the latest
profile row of the user projected to its ten data columns, or the empty
dict (`none`). -/
def get_profile (store : List ProfileRow) (user_email : String) : Option ProfileFields :=
  ((List.insertionSort profIdGe
      (store.filter (fun r => r.user_email == user_email))).head?).map profileFieldsOf

/-- The `SET` clause of `update_profile` (backend.py lines 652-668):
overwrites the ten data columns, leaving `id`, `user_email` and
`created_at` alone. -/
def applyProfileUpdate (d : ProfileUpdateData) (r : ProfileRow) : ProfileRow :=
  { r with first_name := d.first_name.getD "",
           last_name := d.last_name.getD "",
           address := d.address.getD "",
           city := d.city.getD "",
           mobile_number := d.mobile_number.getD "",
           github_url := d.github_url.getD "",
           job_position := d.job_position.getD "",
           experience_months := d.experience_months.getD 0,
           skills := d.skills.getD "",
           preferred_locations := d.preferred_locations.getD "",
           created_at := r.created_at }

/-- `update_profile(user_email, data)` (backend.py lines 649-672):
`UPDATE user_profiles SET ... WHERE id = (subquery)`.  When the subquery
is empty the `WHERE id = NULL` clause matches no row, a silent no-op. -/
def update_profile (store : List ProfileRow) (user_email : String)
    (d : ProfileUpdateData) : String × List ProfileRow :=
  match latestProfileId store user_email with
  | none => ("Profile updated locally.", store)
  | some lid =>
    ("Profile updated locally.",
     store.map (fun r => if r.id == lid then applyProfileUpdate d r else r))

/-! ### Helper lemmas about the mirror-delete index arithmetic -/

/-- Erasing the element right after a prefix removes exactly it. -/
lemma eraseIdx_append_cons {α : Type} (xs : List α) (y : α) (zs : List α) :
    (xs ++ y :: zs).eraseIdx xs.length = xs ++ zs := by
  induction xs with
  | nil => rfl
  | cons a t ih => simpa [List.eraseIdx] using ih

/-- Every index collected by the scan loop is at least the start index. -/
lemma collectIdxs_le (uc jc : Nat) (ue jl : String) :
    ∀ (rows : List (List String)) (i j : Nat),
      j ∈ collectIdxs uc jc ue jl rows i → i ≤ j := by
  intro rows
  induction rows with
  | nil => intro i j h; simp [collectIdxs] at h
  | cons r rs ih =>
    intro i j h
    simp only [collectIdxs, List.mem_append] at h
    rcases h with h | h
    · cases hm : matchRow uc jc ue jl r <;> simp [hm] at h
      omega
    · exact Nat.le_of_succ_le (ih (i + 1) j h)

/-- The collected indices are in ascending order. -/
lemma collectIdxs_sorted (uc jc : Nat) (ue jl : String) :
    ∀ (rows : List (List String)) (i : Nat),
      (collectIdxs uc jc ue jl rows i).Sorted (· ≤ ·) := by
  intro rows
  induction rows with
  | nil => intro i; simp [collectIdxs]
  | cons r rs ih =>
    intro i
    cases hm : matchRow uc jc ue jl r with
    | false => simpa [collectIdxs, hm] using ih (i + 1)
    | true =>
      simp only [collectIdxs, hm, if_pos, List.singleton_append, List.sorted_cons]
      exact ⟨fun j hj => Nat.le_of_succ_le (collectIdxs_le uc jc ue jl rs (i + 1) j hj),
             ih (i + 1)⟩

/-- No index is collected exactly when no data row matches. -/
lemma collectIdxs_eq_nil (uc jc : Nat) (ue jl : String) :
    ∀ (rows : List (List String)) (i : Nat),
      collectIdxs uc jc ue jl rows i = [] ↔
        ∀ r ∈ rows, matchRow uc jc ue jl r = false := by
  intro rows
  induction rows with
  | nil => intro i; simp [collectIdxs]
  | cons r rs ih =>
    intro i
    cases hm : matchRow uc jc ue jl r with
    | false =>
      simp only [collectIdxs, hm, if_neg Bool.false_ne_true, List.nil_append,
                 List.mem_cons, ih]
      constructor
      · intro h x hx
        rcases hx with rfl | hx
        · exact hm
        · exact h x hx
      · intro h x hx
        exact h x (Or.inr hx)
    | true =>
      simp only [collectIdxs, hm, if_pos, List.singleton_append, List.mem_cons]
      constructor
      · intro h; cases h
      · intro h
        exact absurd (h r (Or.inl rfl)) (by simp [hm])

/-- For a weakly ascending list, Python `sorted(l, reverse=True)` is the
reversed list. -/
lemma sortDesc_eq_reverse (l : List Nat) (h : l.Sorted (· ≤ ·)) :
    sortDesc l = l.reverse := by
  refine List.eq_of_perm_of_sorted
    ((List.perm_insertionSort natDesc l).trans l.reverse_perm.symm)
    (List.sorted_insertionSort natDesc l) ?_
  exact List.pairwise_reverse.2 (h.imp fun hab => hab)

/-- Folding the row deletions over the collected indices, innermost (hence
first-executed) deletion at the largest index, removes exactly the
matching data rows. -/
lemma collect_foldr_delete (uc jc : Nat) (ue jl : String) :
    ∀ (rows : List (List String)) (pre : Sheet),
      (collectIdxs uc jc ue jl rows (pre.length + 1)).foldr
          (fun i s => deleteSheetRow s i) (pre ++ rows)
        = pre ++ rows.filter (fun r => !matchRow uc jc ue jl r) := by
  intro rows
  induction rows with
  | nil => intro pre; simp [collectIdxs]
  | cons r rs ih =>
    intro pre
    have hpre : (pre ++ [r]).length + 1 = pre.length + 1 + 1 := by simp
    have hinner :
        (collectIdxs uc jc ue jl rs (pre.length + 1 + 1)).foldr
            (fun i s => deleteSheetRow s i) (pre ++ r :: rs)
          = (pre ++ [r]) ++ rs.filter (fun x => !matchRow uc jc ue jl x) := by
      have := ih (pre ++ [r])
      rw [hpre] at this
      simpa using this
    cases hm : matchRow uc jc ue jl r with
    | false =>
      simp only [collectIdxs, hm, if_neg Bool.false_ne_true, List.nil_append,
                 hinner, List.filter_cons]
      simp [hm]
    | true =>
      simp only [collectIdxs, hm, if_pos, List.singleton_append, List.foldr_cons,
                 hinner, List.filter_cons]
      have h1 : (pre ++ [r]) ++ rs.filter (fun x => !matchRow uc jc ue jl x)
              = pre ++ r :: rs.filter (fun x => !matchRow uc jc ue jl x) := by simp
      simp only [deleteSheetRow, Nat.add_sub_cancel, h1]
      simpa using eraseIdx_append_cons pre r (rs.filter (fun x => !matchRow uc jc ue jl x))

/-- The whole deletion loop of `delete_job_from_google_sheets`: descending
deletion over the collected indices keeps the header and exactly the
non-matching data rows. -/
lemma sortDesc_foldl_delete (uc jc : Nat) (ue jl : String)
    (hd : List String) (rows : List (List String)) :
    (sortDesc (collectIdxs uc jc ue jl rows 2)).foldl deleteSheetRow (hd :: rows)
      = hd :: rows.filter (fun r => !matchRow uc jc ue jl r) := by
  rw [sortDesc_eq_reverse _ (collectIdxs_sorted uc jc ue jl rows 2),
      List.foldl_reverse]
  have := collect_foldr_delete uc jc ue jl rows [hd]
  simpa using this

/-- Every execution of the mirror delete ends in the return of the `try` body or
the `except` return, never an uncaught exception. -/
lemma gsDelete_isOk (auth : Except String Unit) (sheet : Sheet) (ue jl : String) :
    ∃ p, delete_job_from_google_sheets auth sheet ue jl = .ok p := by
  rcases auth with e | u
  · exact ⟨_, rfl⟩
  · cases u
    rcases sheet with _ | ⟨hd, rows⟩
    · exact ⟨_, rfl⟩
    · simp only [delete_job_from_google_sheets]
      repeat' split
      all_goals exact ⟨_, rfl⟩

/-- The header test of the mirror append passes exactly when the first row
is at least as long as the canonical header and matches it cellwise after
stripping surrounding whitespace. -/
lemma headerMismatch_eq_false (fr : List String) :
    headerMismatch fr = false ↔
      (sheetHeaders.length ≤ fr.length ∧
        ∀ p ∈ fr.zip sheetHeaders, pyStrip p.1 = pyStrip p.2) := by
  simp [headerMismatch, List.any_eq_false, not_lt, Prod.forall]

/-! ### Claim C2 (corrected) -/

/-- C2 counterexample: the reset operation `clear_google_sheet_rows` does
NOT convert a transport error into a result string — its `except` branch
re-raises, so the caller receives the transport-level exception
(`Except.error`), refuting the claim that every Spreadsheet Mirror
operation converts transport errors into result strings. -/
theorem c2_clear_reraises_counterexample :
    clear_google_sheet_rows (.error "network unreachable") [sheetHeaders]
      = .error "network unreachable" := rfl

/-- C2 (amended): the mirror `append` and `delete` operations catch every
transport error and return a descriptive result string (they never end in
an uncaught exception), and the local create and delete operations report
their primary result to the caller even when the transport failed; the
reset operation `clear_google_sheet_rows`, however, re-raises the
transport error after logging it. -/
theorem c2_mirror_error_policy (auth : Except String Unit) (sheet : Sheet)
    (data : JobData) (days : Int) (iso ue jl : String) (store : List JobRow)
    (nextId job_id : Nat) :
    (∃ p, append_job_to_google_sheets auth sheet data days iso = .ok p) ∧
    (∃ p, delete_job_from_google_sheets auth sheet ue jl = .ok p) ∧
    (∃ q, save_job_application auth sheet days store nextId iso data = .ok q ∧
       q.1 = "Job application saved successfully!") ∧
    (∃ q, delete_job_application_by_id auth sheet store job_id = .ok q ∧
       (q.1 = "No such job record found." ∨
        ∃ m, q.1 = "Job application deleted successfully (" ++ m ++ ")")) ∧
    (∀ e, auth = .error e → clear_google_sheet_rows auth sheet = .error e) := by
  refine ⟨?_, gsDelete_isOk auth sheet ue jl, ?_, ?_, ?_⟩
  · rcases auth with e | u
    · exact ⟨_, rfl⟩
    · cases u; exact ⟨_, rfl⟩
  · rcases auth with e | u
    · exact ⟨_, rfl, rfl⟩
    · cases u; exact ⟨_, rfl, rfl⟩
  · rcases hf : store.find? (fun r => r.id == job_id) with _ | row
    · refine ⟨("No such job record found.", store, sheet), ?_, Or.inl rfl⟩
      simp [delete_job_application_by_id, hf]
    · obtain ⟨p, hp⟩ := gsDelete_isOk auth sheet row.user_email row.job_link
      refine ⟨("Job application deleted successfully (" ++ p.1 ++ ")",
               store.filter (fun r => r.id != job_id), p.2), ?_, Or.inr ⟨p.1, rfl⟩⟩
      simp [delete_job_application_by_id, hf, hp]
  · intro e he
    subst he
    rfl

/-- C2 witness: the amended theorem applied on a failing transport with a
concrete store, job and sheet. -/
theorem c2_mirror_error_policy_witness :
    (Except.error "boom" : Except String Unit) = .error "boom" ∧
    clear_google_sheet_rows (.error "boom") [sheetHeaders] = .error "boom" :=
  ⟨rfl,
   (c2_mirror_error_policy (.error "boom") [sheetHeaders]
      { user_email := "a@x.com", job_link := "L1" } 0 "t" "a@x.com" "L1" [] 1 1).2.2.2.2
     "boom" rfl⟩

/-! ### Claim C3 (corrected) -/

/-- C3 counterexample: a first row that differs from the canonical header
list (its first cell carries a leading space) is nevertheless accepted —
the sheet is not cleared, the header is not rewritten, and after the
append the first row still differs from the canonical header list.  This
refutes the claim that any deviation from the exact header list triggers
a clear-and-rewrite. -/
theorem c3_inexact_header_kept_counterexample :
    append_job_to_google_sheets (.ok ())
        [[" User Email", "Job Link", "Company Name", "Job Role", "Job Location", "Status",
          "Recruiter Name", "Recruiter Email", "Recruiter Phone", "Days Since Created",
          "Comments", "Created At"]]
        { user_email := "a@x.com", job_link := "http://job/1" } 0 "t1"
      = .ok ("Job appended to Google Sheets.",
             [[" User Email", "Job Link", "Company Name", "Job Role", "Job Location", "Status",
               "Recruiter Name", "Recruiter Email", "Recruiter Phone", "Days Since Created",
               "Comments", "Created At"],
              ["a@x.com", "http://job/1", "", "", "", "", "", "", "", "0", "", "t1"]]) ∧
    [" User Email", "Job Link", "Company Name", "Job Role", "Job Location", "Status",
     "Recruiter Name", "Recruiter Email", "Recruiter Phone", "Days Since Created",
     "Comments", "Created At"] ≠ sheetHeaders := by
  constructor
  · rfl
  · decide

/-- C3 (amended): the mirror append accepts the existing first row — and
leaves the whole sheet intact — exactly when that row has at least the 12
canonical columns and each cell, paired positionally with the canonical
header, matches it after stripping surrounding whitespace; otherwise (or
when the sheet is empty) the sheet is cleared and the canonical header
row written.  The data row is then appended at the end. -/
theorem c3_append_header_check (data : JobData) (days : Int) (iso : String)
    (sheet : Sheet) :
    (sheet = [] → append_job_to_google_sheets (.ok ()) sheet data days iso
        = .ok ("Job appended to Google Sheets.",
               [sheetHeaders, sheetRow data days iso])) ∧
    (∀ fr rest, sheet = fr :: rest →
      ((sheetHeaders.length ≤ fr.length ∧
          ∀ p ∈ fr.zip sheetHeaders, pyStrip p.1 = pyStrip p.2) →
        append_job_to_google_sheets (.ok ()) sheet data days iso
          = .ok ("Job appended to Google Sheets.",
                 (fr :: rest) ++ [sheetRow data days iso])) ∧
      (¬ (sheetHeaders.length ≤ fr.length ∧
            ∀ p ∈ fr.zip sheetHeaders, pyStrip p.1 = pyStrip p.2) →
        append_job_to_google_sheets (.ok ()) sheet data days iso
          = .ok ("Job appended to Google Sheets.",
                 [sheetHeaders, sheetRow data days iso]))) := by
  constructor
  · rintro rfl
    rfl
  · rintro fr rest rfl
    constructor
    · intro hacc
      have hm : headerMismatch fr = false := (headerMismatch_eq_false fr).2 hacc
      simp [append_job_to_google_sheets, hm]
    · intro hacc
      have hm : headerMismatch fr = true := by
        cases hcase : headerMismatch fr with
        | false => exact absurd ((headerMismatch_eq_false fr).1 hcase) hacc
        | true => rfl
      simp [append_job_to_google_sheets, hm]

/-- C3 witness: the amended theorem applied to a sheet whose first row is
the exact canonical header (accepted, sheet kept) at a concrete record. -/
theorem c3_append_header_check_witness :
    (sheetHeaders.length ≤ sheetHeaders.length ∧
       ∀ p ∈ sheetHeaders.zip sheetHeaders, pyStrip p.1 = pyStrip p.2) ∧
    append_job_to_google_sheets (.ok ()) [sheetHeaders]
        { user_email := "a@x.com", job_link := "L1" } 0 "t"
      = .ok ("Job appended to Google Sheets.",
             [sheetHeaders] ++ [sheetRow { user_email := "a@x.com", job_link := "L1" } 0 "t"]) := by
  have hacc : sheetHeaders.length ≤ sheetHeaders.length ∧
      ∀ p ∈ sheetHeaders.zip sheetHeaders, pyStrip p.1 = pyStrip p.2 := by decide
  exact ⟨hacc,
    ((c3_append_header_check { user_email := "a@x.com", job_link := "L1" } 0 "t"
        [sheetHeaders]).2 sheetHeaders [] rfl).1 hacc⟩

/-! ### Claim C4 (confirmed) -/

/-- C4: the mirror delete scans all data rows, collects every 1-based row
index whose User Email and Job Link cells both equal the given values
exactly, and removes exactly those rows (the descending deletion order
makes the final sheet the header followed by the non-matching data rows);
it performs no removal and reports a no-op result when the sheet is empty
or has no data rows, when a required column header is missing, or when no
row matches. -/
theorem c4_mirror_delete_exact (sheet : Sheet) (ue jl : String) :
    (sheet.length ≤ 1 →
       delete_job_from_google_sheets (.ok ()) sheet ue jl
         = .ok ("No rows to delete in Google Sheet.", sheet)) ∧
    (∀ hd rows, sheet = hd :: rows → rows ≠ [] →
      (((hd.findIdx? (fun h => h == "User Email")) = none ∨
        (hd.findIdx? (fun h => h == "Job Link")) = none) →
         delete_job_from_google_sheets (.ok ()) sheet ue jl
           = .ok ("Required columns not found in Google Sheet.", sheet)) ∧
      (∀ u0 j0, (hd.findIdx? (fun h => h == "User Email")) = some u0 →
                (hd.findIdx? (fun h => h == "Job Link")) = some j0 →
        ((∀ r ∈ rows, matchRow (u0 + 1) (j0 + 1) ue jl r = false) →
           delete_job_from_google_sheets (.ok ()) sheet ue jl
             = .ok ("No matching row found in Google Sheet.", sheet)) ∧
        ((∃ r ∈ rows, matchRow (u0 + 1) (j0 + 1) ue jl r = true) →
           delete_job_from_google_sheets (.ok ()) sheet ue jl
             = .ok ("Deleted from Google Sheet.",
                    hd :: rows.filter (fun r => !matchRow (u0 + 1) (j0 + 1) ue jl r))))) := by
  constructor
  · intro hlen
    rcases sheet with _ | ⟨hd, _ | ⟨r2, rs⟩⟩
    · rfl
    · rfl
    · simp at hlen
  · rintro hd rows rfl hrows
    have hne : rows.isEmpty = false := by
      cases rows with
      | nil => exact absurd rfl hrows
      | cons a l => rfl
    constructor
    · intro hcols
      rcases hcols with h | h
      · rcases hj : hd.findIdx? (fun h => h == "Job Link") with _ | j0 <;>
          simp [delete_job_from_google_sheets, hne, h, hj]
      · rcases hu : hd.findIdx? (fun h => h == "User Email") with _ | u0 <;>
          simp [delete_job_from_google_sheets, hne, h, hu]
    · rintro u0 j0 hu hj
      constructor
      · intro hnone
        have hidx : collectIdxs (u0 + 1) (j0 + 1) ue jl rows 2 = [] :=
          (collectIdxs_eq_nil (u0 + 1) (j0 + 1) ue jl rows 2).2 hnone
        simp [delete_job_from_google_sheets, hne, hu, hj, hidx]
      · rintro ⟨r, hr, hmr⟩
        have hidx : (collectIdxs (u0 + 1) (j0 + 1) ue jl rows 2).isEmpty = false := by
          cases hcc : collectIdxs (u0 + 1) (j0 + 1) ue jl rows 2 with
          | nil =>
            have := (collectIdxs_eq_nil (u0 + 1) (j0 + 1) ue jl rows 2).1 hcc r hr
            rw [hmr] at this
            cases this
          | cons a l => rfl
        simp [delete_job_from_google_sheets, hne, hu, hj, hidx,
              sortDesc_foldl_delete]

/-- C4 witness: a concrete sheet with one matching and one non-matching
data row; the delete removes exactly the matching one. -/
theorem c4_mirror_delete_exact_witness :
    matchRow 1 2 "a@x.com" "L1" ["a@x.com", "L1"] = true ∧
    delete_job_from_google_sheets (.ok ())
        (sheetHeaders :: [["a@x.com", "L1"], ["b@x.com", "L1"]]) "a@x.com" "L1"
      = .ok ("Deleted from Google Sheet.", sheetHeaders :: [["b@x.com", "L1"]]) := by
  have h := ((((c4_mirror_delete_exact
      (sheetHeaders :: [["a@x.com", "L1"], ["b@x.com", "L1"]]) "a@x.com" "L1").2
      sheetHeaders [["a@x.com", "L1"], ["b@x.com", "L1"]] rfl (by decide)).2
      0 1 (by decide) (by decide)).2
      ⟨["a@x.com", "L1"], by decide, by decide⟩)
  constructor
  · decide
  · rw [h]
    rfl

/-! ### Claim C1 (code bug) -/

/-- C1: the duplicate guard is lost in the executing code.  Starting from a
store that already holds the pair `("a@x.com", "http://job/1")` — so
`job_exists_for_user` is true — the executing `save_job_application`
(second copy, backend.py line 678) nevertheless inserts a second row with
the identical pair and reports success, while the shadowed first copy
(backend.py line 234, whose docstring promises to prevent duplicate job
links per user) would have refused with the duplicate message and left
the store unchanged. -/
theorem c1_duplicate_check_shadowed_bug :
    job_exists_for_user
        [{ id := 1, user_email := "a@x.com", job_link := "http://job/1",
           company_name := "", job_role := "", job_location := "", status := "",
           recruiter_name := "", recruiter_email := "", recruiter_phone := "",
           comments := "", created_at := "t1" }] "a@x.com" "http://job/1" = true ∧
    save_job_application (.error "gs down") [] 0
        [{ id := 1, user_email := "a@x.com", job_link := "http://job/1",
           company_name := "", job_role := "", job_location := "", status := "",
           recruiter_name := "", recruiter_email := "", recruiter_phone := "",
           comments := "", created_at := "t1" }] 2 "t2"
        { user_email := "a@x.com", job_link := "http://job/1" }
      = .ok ("Job application saved successfully!",
             [{ id := 1, user_email := "a@x.com", job_link := "http://job/1",
                company_name := "", job_role := "", job_location := "", status := "",
                recruiter_name := "", recruiter_email := "", recruiter_phone := "",
                comments := "", created_at := "t1" },
              { id := 2, user_email := "a@x.com", job_link := "http://job/1",
                company_name := "", job_role := "", job_location := "", status := "",
                recruiter_name := "", recruiter_email := "", recruiter_phone := "",
                comments := "", created_at := "t2" }], []) ∧
    save_job_application_v1 (.error "gs down") [] 0
        [{ id := 1, user_email := "a@x.com", job_link := "http://job/1",
           company_name := "", job_role := "", job_location := "", status := "",
           recruiter_name := "", recruiter_email := "", recruiter_phone := "",
           comments := "", created_at := "t1" }] 2 "t2"
        { user_email := "a@x.com", job_link := "http://job/1" }
      = .ok ("Duplicate job link for this user. Record not added.",
             [{ id := 1, user_email := "a@x.com", job_link := "http://job/1",
                company_name := "", job_role := "", job_location := "", status := "",
                recruiter_name := "", recruiter_email := "", recruiter_phone := "",
                comments := "", created_at := "t1" }], []) :=
  ⟨rfl, rfl, rfl⟩

/-! ### Claim C5 (confirmed) -/

/-- C5: deleting a job application by id returns the not-found message and
leaves the store and the sheet completely unchanged when no row has that
id; otherwise it removes exactly the rows with that id and triggers the
mirror delete keyed by the `(user_email, job_link)` of the row fetched
before the local deletion. -/
theorem c5_delete_by_id (auth : Except String Unit) (sheet : Sheet)
    (store : List JobRow) (job_id : Nat) :
    ((∀ r ∈ store, r.id ≠ job_id) →
       delete_job_application_by_id auth sheet store job_id
         = .ok ("No such job record found.", store, sheet)) ∧
    (∀ row, store.find? (fun r => r.id == job_id) = some row →
       ∃ p, delete_job_from_google_sheets auth sheet row.user_email row.job_link
              = .ok p ∧
            delete_job_application_by_id auth sheet store job_id
              = .ok ("Job application deleted successfully (" ++ p.1 ++ ")",
                     store.filter (fun r => r.id != job_id), p.2)) := by
  constructor
  · intro hnone
    have hf : store.find? (fun r => r.id == job_id) = none := by
      rw [List.find?_eq_none]
      intro r hr
      simpa using hnone r hr
    simp [delete_job_application_by_id, hf]
  · intro row hf
    obtain ⟨p, hp⟩ := gsDelete_isOk auth sheet row.user_email row.job_link
    exact ⟨p, hp, by simp [delete_job_application_by_id, hf, hp]⟩

/-- C5 witness: a concrete store where the requested id is absent. -/
theorem c5_delete_by_id_witness :
    (∀ r ∈ [{ id := 1, user_email := "a@x.com", job_link := "L1",
              company_name := "", job_role := "", job_location := "", status := "",
              recruiter_name := "", recruiter_email := "", recruiter_phone := "",
              comments := "", created_at := "t1" }], JobRow.id r ≠ 7) ∧
    delete_job_application_by_id (.ok ()) [sheetHeaders]
        [{ id := 1, user_email := "a@x.com", job_link := "L1",
           company_name := "", job_role := "", job_location := "", status := "",
           recruiter_name := "", recruiter_email := "", recruiter_phone := "",
           comments := "", created_at := "t1" }] 7
      = .ok ("No such job record found.",
             [{ id := 1, user_email := "a@x.com", job_link := "L1",
                company_name := "", job_role := "", job_location := "", status := "",
                recruiter_name := "", recruiter_email := "", recruiter_phone := "",
                comments := "", created_at := "t1" }], [sheetHeaders]) :=
  ⟨by decide,
   (c5_delete_by_id (.ok ()) [sheetHeaders]
      [{ id := 1, user_email := "a@x.com", job_link := "L1",
         company_name := "", job_role := "", job_location := "", status := "",
         recruiter_name := "", recruiter_email := "", recruiter_phone := "",
         comments := "", created_at := "t1" }] 7).1 (by decide)⟩

/-! ### Claim C6 (corrected) -/

/-- C6 counterexample: with the email `a@x.com` already registered, a
registration attempt with a 5-character password returns the password
validation message, not the duplicate message — the duplicate result is
NOT produced `regardless of the password supplied`.  (`fun _ => true`
instantiates the email-format validator, which accepts `a@x.com`.) -/
theorem c6_short_password_beats_duplicate_counterexample :
    register_user (fun _ => true) (fun p => p)
        [{ id := 1, email := "a@x.com", password_hash := "h", created_at := "t" }]
        2 "t2" "a@x.com" "short"
      = ("Password must be at least 8 characters.",
         [{ id := 1, email := "a@x.com", password_hash := "h", created_at := "t" }]) ∧
    ("Password must be at least 8 characters." : String)
      ≠ "Email already registered." := by
  constructor
  · rfl
  · decide

/-- C6 (amended): registration returns a validation message — leaving the
store untouched — whenever the email fails format validation or the
password is shorter than 8 characters (these checks run first); when both
validations pass, it returns the duplicate message if the email is
already present, regardless of which valid password is supplied;
otherwise it inserts the user with the salted hash of the password and
reports success. -/
theorem c6_register_user (emailValid : String → Bool) (hashpw : String → String)
    (store : List UserRow) (nextId : Nat) (now_iso email password : String) :
    (emailValid email = false →
       register_user emailValid hashpw store nextId now_iso email password
         = ("Invalid email format.", store)) ∧
    (emailValid email = true → password.length < 8 →
       register_user emailValid hashpw store nextId now_iso email password
         = ("Password must be at least 8 characters.", store)) ∧
    (emailValid email = true → 8 ≤ password.length →
       (∃ u ∈ store, u.email = email) →
       register_user emailValid hashpw store nextId now_iso email password
         = ("Email already registered.", store)) ∧
    (emailValid email = true → 8 ≤ password.length →
       (∀ u ∈ store, u.email ≠ email) →
       register_user emailValid hashpw store nextId now_iso email password
         = ("Registration successful!",
            store ++ [{ id := nextId, email := email,
                        password_hash := hashpw password,
                        created_at := now_iso }])) := by
  refine ⟨?_, ?_, ?_, ?_⟩
  · intro hv
    simp [register_user, hv]
  · intro hv hlen
    simp [register_user, hv, hlen]
  · intro hv hlen hdup
    have hmem : store.any (fun u => u.email == email) = true := by
      rw [List.any_eq_true]
      obtain ⟨u, hu, he⟩ := hdup
      exact ⟨u, hu, by simp [he]⟩
    simp [register_user, hv, Nat.not_lt.2 hlen, hmem]
  · intro hv hlen hnew
    have hmem : store.any (fun u => u.email == email) = false := by
      rw [List.any_eq_false]
      intro u hu
      simpa using hnew u hu
    simp [register_user, hv, Nat.not_lt.2 hlen, hmem]

/-- C6 witness: a fresh valid registration on an empty store. -/
theorem c6_register_user_witness :
    ((fun _ : String => true) "b@x.com" = true ∧ 8 ≤ ("longpassword" : String).length) ∧
    register_user (fun _ => true) (fun p => p ++ "#salted") [] 1 "t0" "b@x.com" "longpassword"
      = ("Registration successful!",
         [{ id := 1, email := "b@x.com", password_hash := "longpassword#salted",
            created_at := "t0" }]) :=
  ⟨⟨rfl, by decide⟩,
   (c6_register_user (fun _ => true) (fun p => p ++ "#salted") [] 1 "t0"
      "b@x.com" "longpassword").2.2.2 rfl (by decide) (by simp)⟩

/-! ### Claim C7 (confirmed) -/

/-- C7: login returns the not-found message for every email with no stored
user, the incorrect-password message when the hash check of the stored user
fails, and the success message exactly when the hash check on the first
stored user with that email passes. -/
theorem c7_login_user (checkpw : String → String → Bool) (store : List UserRow)
    (email password : String) :
    ((∀ u ∈ store, u.email ≠ email) →
       login_user checkpw store email password = "No account found with that email.") ∧
    (∀ u, store.find? (fun v => v.email == email) = some u →
       (checkpw password u.password_hash = false →
          login_user checkpw store email password = "Incorrect password.") ∧
       (checkpw password u.password_hash = true →
          login_user checkpw store email password = "Login successful!")) ∧
    (login_user checkpw store email password = "Login successful!" ↔
       ∃ u, store.find? (fun v => v.email == email) = some u ∧
            checkpw password u.password_hash = true) := by
  refine ⟨?_, ?_, ?_⟩
  · intro hnone
    have hf : store.find? (fun v => v.email == email) = none := by
      rw [List.find?_eq_none]
      intro u hu
      simpa using hnone u hu
    simp [login_user, hf]
  · intro u hf
    constructor
    · intro hc
      simp [login_user, hf, hc]
    · intro hc
      simp [login_user, hf, hc]
  · constructor
    · intro hs
      rcases hf : store.find? (fun v => v.email == email) with _ | u
      · simp [login_user, hf] at hs
      · refine ⟨u, hf, ?_⟩
        cases hc : checkpw password u.password_hash with
        | false => simp [login_user, hf, hc] at hs
        | true => rfl
    · rintro ⟨u, hf, hc⟩
      simp [login_user, hf, hc]

/-- C7 witness: unknown email, wrong password, and right password on a
concrete store. -/
theorem c7_login_user_witness :
    login_user (fun p h => p ++ "#s" == h)
        [{ id := 1, email := "a@x.com", password_hash := "pw12345678#s",
           created_at := "t" }] "nobody@x.com" "pw12345678"
      = "No account found with that email." ∧
    login_user (fun p h => p ++ "#s" == h)
        [{ id := 1, email := "a@x.com", password_hash := "pw12345678#s",
           created_at := "t" }] "a@x.com" "wrong"
      = "Incorrect password." ∧
    login_user (fun p h => p ++ "#s" == h)
        [{ id := 1, email := "a@x.com", password_hash := "pw12345678#s",
           created_at := "t" }] "a@x.com" "pw12345678"
      = "Login successful!" :=
  ⟨(c7_login_user (fun p h => p ++ "#s" == h)
      [{ id := 1, email := "a@x.com", password_hash := "pw12345678#s",
         created_at := "t" }] "nobody@x.com" "pw12345678").1 (by decide),
   ((c7_login_user (fun p h => p ++ "#s" == h)
      [{ id := 1, email := "a@x.com", password_hash := "pw12345678#s",
         created_at := "t" }] "a@x.com" "wrong").2.1
      { id := 1, email := "a@x.com", password_hash := "pw12345678#s",
        created_at := "t" } (by decide)).1 (by decide),
   ((c7_login_user (fun p h => p ++ "#s" == h)
      [{ id := 1, email := "a@x.com", password_hash := "pw12345678#s",
         created_at := "t" }] "a@x.com" "pw12345678").2.1
      { id := 1, email := "a@x.com", password_hash := "pw12345678#s",
        created_at := "t" } (by decide)).2 (by decide)⟩

/-! ### Claim C8 (confirmed) -/

/-- C8: for every user and store state (with the primary-key invariant
that ids are distinct), the listing returns exactly the job rows whose
`user_email` equals the given value — no rows of any other user — in
strictly descending id order. -/
theorem c8_list_for_user (store : List JobRow) (u : String)
    (hids : (store.map (fun r => r.id)).Nodup) :
    (∀ r, r ∈ get_user_applications store u ↔ (r ∈ store ∧ r.user_email = u)) ∧
    (get_user_applications store u).Pairwise (fun a b => b.id < a.id) := by
  constructor
  · intro r
    rw [get_user_applications, List.mem_insertionSort, List.mem_filter]
    simp
  · have hsorted : (get_user_applications store u).Pairwise jobIdGe :=
      List.sorted_insertionSort jobIdGe _
    have hsubmap : List.Sublist
        ((store.filter (fun r => r.user_email == u)).map (fun r => r.id))
        (store.map (fun r => r.id)) :=
      (List.filter_sublist store).map (fun r => r.id)
    have hfil : ((store.filter (fun r => r.user_email == u)).map (fun r => r.id)).Nodup :=
      hids.sublist hsubmap
    have hperm : List.Perm (get_user_applications store u)
        (store.filter (fun r => r.user_email == u)) :=
      List.perm_insertionSort jobIdGe _
    have hnd : ((get_user_applications store u).map (fun r => r.id)).Nodup :=
      ((hperm.map (fun r => r.id)).nodup_iff).2 hfil
    have hne : (get_user_applications store u).Pairwise
        (fun a b => JobRow.id a ≠ JobRow.id b) := List.pairwise_map.1 hnd
    exact (hsorted.and hne).imp (fun h => lt_of_le_of_ne h.1 h.2.symm)

/-- C8 witness: a store holding two rows of user `a` (ids 1 and 2) and one
of user `b` (id 3); the listing for `a` contains the id-2 row and is in
strictly descending id order. -/
theorem c8_list_for_user_witness :
    (([{ id := 1, user_email := "a", job_link := "L1", company_name := "",
         job_role := "", job_location := "", status := "", recruiter_name := "",
         recruiter_email := "", recruiter_phone := "", comments := "",
         created_at := "t" },
       { id := 3, user_email := "b", job_link := "L2", company_name := "",
         job_role := "", job_location := "", status := "", recruiter_name := "",
         recruiter_email := "", recruiter_phone := "", comments := "",
         created_at := "t" },
       { id := 2, user_email := "a", job_link := "L3", company_name := "",
         job_role := "", job_location := "", status := "", recruiter_name := "",
         recruiter_email := "", recruiter_phone := "", comments := "",
         created_at := "t" }] : List JobRow).map (fun r => r.id)).Nodup ∧
    ({ id := 2, user_email := "a", job_link := "L3", company_name := "",
       job_role := "", job_location := "", status := "", recruiter_name := "",
       recruiter_email := "", recruiter_phone := "", comments := "",
       created_at := "t" } : JobRow) ∈
      get_user_applications
        [{ id := 1, user_email := "a", job_link := "L1", company_name := "",
           job_role := "", job_location := "", status := "", recruiter_name := "",
           recruiter_email := "", recruiter_phone := "", comments := "",
           created_at := "t" },
         { id := 3, user_email := "b", job_link := "L2", company_name := "",
           job_role := "", job_location := "", status := "", recruiter_name := "",
           recruiter_email := "", recruiter_phone := "", comments := "",
           created_at := "t" },
         { id := 2, user_email := "a", job_link := "L3", company_name := "",
           job_role := "", job_location := "", status := "", recruiter_name := "",
           recruiter_email := "", recruiter_phone := "", comments := "",
           created_at := "t" }] "a" := by
  refine ⟨by decide, ?_⟩
  exact ((c8_list_for_user _ "a" (by decide)).1 _).2 ⟨by decide, rfl⟩

/-! ### Claim C9 -/

/-- Among the profile rows of the user the one of maximal id heads the
descending-id sort: the `ORDER BY id DESC LIMIT 1` subquery. -/
lemma latest_head_eq (store : List ProfileRow) (u : String) (r : ProfileRow)
    (hmem : r ∈ store) (hu : r.user_email = u)
    (hmax : ∀ x ∈ store, x.user_email = u → x.id ≤ r.id)
    (hnodup : (store.map (fun x => x.id)).Nodup) :
    (List.insertionSort profIdGe (store.filter (fun x => x.user_email == u))).head?
      = some r := by
  have hperm : List.Perm
      (List.insertionSort profIdGe (store.filter (fun x => x.user_email == u)))
      (store.filter (fun x => x.user_email == u)) :=
    List.perm_insertionSort profIdGe _
  have hrs : r ∈ List.insertionSort profIdGe (store.filter (fun x => x.user_email == u)) :=
    hperm.mem_iff.2 (List.mem_filter.2 ⟨hmem, by simp [hu]⟩)
  have hsorted : (List.insertionSort profIdGe
      (store.filter (fun x => x.user_email == u))).Pairwise profIdGe :=
    List.sorted_insertionSort profIdGe _
  cases hcase : List.insertionSort profIdGe (store.filter (fun x => x.user_email == u)) with
  | nil => rw [hcase] at hrs; cases hrs
  | cons a t =>
    rw [hcase] at hrs hsorted hperm
    have ha : a ∈ store.filter (fun x => x.user_email == u) :=
      hperm.subset (List.mem_cons_self a t)
    have haf := List.mem_filter.1 ha
    have haid : a.id ≤ r.id := hmax a haf.1 (by simpa using haf.2)
    rcases List.mem_cons.1 hrs with rfl | hrt
    · rfl
    · have hra : profIdGe a r := (List.pairwise_cons.1 hsorted).1 r hrt
      have hid : a.id = r.id := le_antisymm haid hra
      have : a = r := List.inj_on_of_nodup_map hnodup haf.1 hmem hid
      rw [this]
      rfl

/-- C9: when the user has no profile row, `update_profile` is a silent
no-op (the store is returned unchanged) and `get_profile` for that user
still returns empty afterwards; when the user has rows (ids being
distinct, the primary-key invariant), it rewrites in place exactly the
fields of the row with the greatest id among the rows of the user, every
other row passing through the map unchanged. -/
theorem c9_update_profile (store : List ProfileRow) (u : String)
    (d : ProfileUpdateData) :
    ((∀ r ∈ store, r.user_email ≠ u) →
       update_profile store u d = ("Profile updated locally.", store) ∧
       get_profile (update_profile store u d).2 u = none) ∧
    (∀ r ∈ store, r.user_email = u →
       (∀ x ∈ store, x.user_email = u → x.id ≤ r.id) →
       (store.map (fun x => x.id)).Nodup →
       update_profile store u d
         = ("Profile updated locally.",
            store.map (fun x => if x.id == r.id then applyProfileUpdate d x else x))) := by
  constructor
  · intro hnone
    have hfil : store.filter (fun x => x.user_email == u) = [] := by
      rw [List.filter_eq_nil_iff]
      intro x hx
      simpa using hnone x hx
    have hupd : update_profile store u d = ("Profile updated locally.", store) := by
      simp [update_profile, latestProfileId, hfil, List.insertionSort]
    refine ⟨hupd, ?_⟩
    rw [hupd]
    simp [get_profile, hfil, List.insertionSort]
  · intro r hr hu hmax hnodup
    have hhead := latest_head_eq store u r hr hu hmax hnodup
    simp [update_profile, latestProfileId, hhead]

/-- C9 witness: a user with no profile row — the update is a no-op and the
profile read still returns empty. -/
theorem c9_update_profile_witness :
    (∀ r ∈ [({ id := 1, user_email := "a", first_name := "", last_name := "",
               address := "", city := "", mobile_number := "", github_url := "",
               job_position := "", experience_months := 0, skills := "",
               preferred_locations := "", created_at := "t" } : ProfileRow)],
       ProfileRow.user_email r ≠ "z") ∧
    update_profile
        [({ id := 1, user_email := "a", first_name := "", last_name := "",
            address := "", city := "", mobile_number := "", github_url := "",
            job_position := "", experience_months := 0, skills := "",
            preferred_locations := "", created_at := "t" } : ProfileRow)] "z" {}
      = ("Profile updated locally.",
         [({ id := 1, user_email := "a", first_name := "", last_name := "",
             address := "", city := "", mobile_number := "", github_url := "",
             job_position := "", experience_months := 0, skills := "",
             preferred_locations := "", created_at := "t" } : ProfileRow)]) ∧
    get_profile
        (update_profile
          [({ id := 1, user_email := "a", first_name := "", last_name := "",
              address := "", city := "", mobile_number := "", github_url := "",
              job_position := "", experience_months := 0, skills := "",
              preferred_locations := "", created_at := "t" } : ProfileRow)] "z" {}).2
        "z" = none := by
  have h := (c9_update_profile
    [({ id := 1, user_email := "a", first_name := "", last_name := "",
        address := "", city := "", mobile_number := "", github_url := "",
        job_position := "", experience_months := 0, skills := "",
        preferred_locations := "", created_at := "t" } : ProfileRow)] "z" {}).1
    (by decide)
  exact ⟨by decide, h.1, h.2⟩

/-! ### Claim C10 (confirmed) -/

/-- C10: the (spec-undocumented) `update_job_application` always reports
the fixed success message — it performs no `(user_email, job_link)`
uniqueness check, succeeding on every store and every payload — and
produces a store of the same length in which the row at each position is
unchanged when its id differs from `job_id` and otherwise has its nine
listed fields overwritten (absent payload fields defaulting to the empty
string) with its `id`, `user_email` and `created_at` preserved. -/
theorem c10_update_job_application (store : List JobRow) (job_id : Nat)
    (d : JobUpdateData) :
    (update_job_application store job_id d).1 = "Job updated locally." ∧
    (update_job_application store job_id d).1
      ≠ "Duplicate job link for this user. Record not added." ∧
    (update_job_application store job_id d).2.length = store.length ∧
    (∀ (k : Nat) (r : JobRow), store[k]? = some r →
       (update_job_application store job_id d).2[k]?
         = some (if r.id = job_id then applyJobUpdate d r else r)) ∧
    (∀ r : JobRow,
       (applyJobUpdate d r).id = r.id ∧
       (applyJobUpdate d r).user_email = r.user_email ∧
       (applyJobUpdate d r).created_at = r.created_at ∧
       (applyJobUpdate d r).job_link = d.job_link.getD "" ∧
       (applyJobUpdate d r).company_name = d.company_name.getD "" ∧
       (applyJobUpdate d r).job_role = d.job_role.getD "" ∧
       (applyJobUpdate d r).job_location = d.job_location.getD "" ∧
       (applyJobUpdate d r).status = d.status.getD "" ∧
       (applyJobUpdate d r).recruiter_name = d.recruiter_name.getD "" ∧
       (applyJobUpdate d r).recruiter_email = d.recruiter_email.getD "" ∧
       (applyJobUpdate d r).recruiter_phone = d.recruiter_phone.getD "" ∧
       (applyJobUpdate d r).comments = d.comments.getD "") := by
  refine ⟨rfl, by simp [update_job_application], ?_, ?_, ?_⟩
  · simp [update_job_application]
  · intro k r hk
    simp [update_job_application, List.getElem?_map, hk]
  · intro r
    exact ⟨rfl, rfl, rfl, rfl, rfl, rfl, rfl, rfl, rfl, rfl, rfl, rfl⟩

/-- C10 witness: updating row id 2 to the link already used by row id 1
still succeeds (no uniqueness check) and rewrites exactly that row. -/
theorem c10_update_job_application_witness :
    ([({ id := 1, user_email := "a", job_link := "L1", company_name := "",
         job_role := "", job_location := "", status := "", recruiter_name := "",
         recruiter_email := "", recruiter_phone := "", comments := "",
         created_at := "t1" } : JobRow),
      { id := 2, user_email := "a", job_link := "L2", company_name := "",
        job_role := "", job_location := "", status := "", recruiter_name := "",
        recruiter_email := "", recruiter_phone := "", comments := "",
        created_at := "t2" }][1]?
      = some { id := 2, user_email := "a", job_link := "L2", company_name := "",
               job_role := "", job_location := "", status := "", recruiter_name := "",
               recruiter_email := "", recruiter_phone := "", comments := "",
               created_at := "t2" }) ∧
    (update_job_application
        [({ id := 1, user_email := "a", job_link := "L1", company_name := "",
            job_role := "", job_location := "", status := "", recruiter_name := "",
            recruiter_email := "", recruiter_phone := "", comments := "",
            created_at := "t1" } : JobRow),
         { id := 2, user_email := "a", job_link := "L2", company_name := "",
           job_role := "", job_location := "", status := "", recruiter_name := "",
           recruiter_email := "", recruiter_phone := "", comments := "",
           created_at := "t2" }] 2 { job_link := some "L1" }).1
      = "Job updated locally." ∧
    (update_job_application
        [({ id := 1, user_email := "a", job_link := "L1", company_name := "",
            job_role := "", job_location := "", status := "", recruiter_name := "",
            recruiter_email := "", recruiter_phone := "", comments := "",
            created_at := "t1" } : JobRow),
         { id := 2, user_email := "a", job_link := "L2", company_name := "",
           job_role := "", job_location := "", status := "", recruiter_name := "",
           recruiter_email := "", recruiter_phone := "", comments := "",
           created_at := "t2" }] 2 { job_link := some "L1" }).2[1]?
      = some (if ({ id := 2, user_email := "a", job_link := "L2", company_name := "",
                    job_role := "", job_location := "", status := "", recruiter_name := "",
                    recruiter_email := "", recruiter_phone := "", comments := "",
                    created_at := "t2" } : JobRow).id = 2
              then applyJobUpdate { job_link := some "L1" }
                     { id := 2, user_email := "a", job_link := "L2", company_name := "",
                       job_role := "", job_location := "", status := "", recruiter_name := "",
                       recruiter_email := "", recruiter_phone := "", comments := "",
                       created_at := "t2" }
              else { id := 2, user_email := "a", job_link := "L2", company_name := "",
                     job_role := "", job_location := "", status := "", recruiter_name := "",
                     recruiter_email := "", recruiter_phone := "", comments := "",
                     created_at := "t2" }) := by
  refine ⟨rfl, ?_, ?_⟩
  · exact (c10_update_job_application _ 2 { job_link := some "L1" }).1
  · exact (c10_update_job_application _ 2 { job_link := some "L1" }).2.2.2.1 1 _ rfl
